import Mathlib

/-!
Verification of the dispatch-and-session engine of a chat-to-shell/assistant
bridge daemon (source: `src/daemon/claude_slack_daemon.py`).

The Python source is shallowly embedded: pure string manipulation is
translated to functions on `String`/`List Char` mirroring Python `str`
semantics (`lower`, `strip`, `startswith`, slicing, `split(maxsplit=1)`);
the mutable per-thread dictionaries become association lists; filesystem,
subprocess and transport effects become oracle functions carried in a
`Config`/`Transport` record, and the message handler returns an explicit
record of the state transition together with the messages sent and the
subprocesses spawned.
-/

/-- Python `str.lower()` (per-character lowering). -/
def pyLower (s : String) : String := ⟨s.data.map Char.toLower⟩

/-- Whitespace test used by Python `str.strip()` / `str.split()`. -/
def wsp (c : Char) : Bool := c.isWhitespace

/-- Remove leading whitespace from a character list. -/
def stripL (l : List Char) : List Char := l.dropWhile wsp

/-- Remove trailing whitespace from a character list. -/
def stripR (l : List Char) : List Char := (l.reverse.dropWhile wsp).reverse

/-- Python `str.strip()` on character lists. -/
def pyStripL (l : List Char) : List Char := stripR (stripL l)

/-- Python `str.strip()`. -/
def pyStrip (s : String) : String := ⟨pyStripL s.data⟩

/-- Python `str.startswith(pat)`. -/
def pyStartsWith (s pat : String) : Bool := pat.data.isPrefixOf s.data

/-- Python slicing `s[n:]`. -/
def sdrop (s : String) (n : Nat) : String := ⟨s.data.drop n⟩

/-- Python slicing `s[:n]`. -/
def pyTake (s : String) (n : Nat) : String := ⟨s.data.take n⟩

/-- Python truthiness-based `a or b` for an optional string `a`. -/
def pyOrS (a : Option String) (b : String) : String :=
  match a with
  | some s => if s = "" then b else s
  | none => b

/-- First whitespace-delimited token of a character list, with the rest. -/
def splitTok : List Char → List Char × List Char
  | [] => ([], [])
  | c :: cs =>
    if wsp c then ([], c :: cs)
    else
      let r := splitTok cs
      (c :: r.1, r.2)

/-- Python `s.split(maxsplit=1)`: the first token and, when present, the
remainder after the separating whitespace run. -/
def pySplitMax1 (s : String) : String × Option String :=
  let l := s.data.dropWhile wsp
  let r := splitTok l
  let rest := r.2.dropWhile wsp
  (⟨r.1⟩, if rest.isEmpty then none else some ⟨rest⟩)

/-- Python `response[i:i+3000]` chunking loop from the end of `handle`. -/
def chunkList (l : List Char) : List String :=
  match l with
  | [] => []
  | c :: rest => (⟨(c :: rest).take 3000⟩ : String) :: chunkList ((c :: rest).drop 3000)
termination_by l.length
decreasing_by
  simp only [List.length_drop, List.length_cons]
  omega

/-- The per-thread dictionaries of the daemon (`sessions`, `thread_cwd`, ...). -/
abbrev StrMap := List (String × String)

/-- Python `dict.get(k)`: lookup in an association list (generic value type). -/
def alookup {β : Type} : List (String × β) → String → Option β
  | [], _ => none
  | (k0, v0) :: rest, k => if k = k0 then some v0 else alookup rest k

/-- Python `d[k] = v`: replace in place when the key exists, else append. -/
def minsert : StrMap → String → String → StrMap
  | [], k, v => [(k, v)]
  | (k0, v0) :: rest, k, v =>
    if k = k0 then (k, v) :: rest else (k0, v0) :: minsert rest k v

/-- Python `d.pop(k, None)`: remove the key's entry. -/
def merase : StrMap → String → StrMap
  | [], _ => []
  | (k0, v0) :: rest, k =>
    if k = k0 then merase rest k else (k0, v0) :: merase rest k

/-- The `ALLOWED_SHELL_PREFIXES` list from the source. -/
def ALLOWED_SHELL_PREFIXES : List String :=
  ["ls", "pwd", "cat", "head", "tail", "grep", "find", "wc",
   "git status", "git log", "git diff", "git branch", "git show",
   "claude conversation", "claude config",
   "echo", "date", "whoami", "hostname", "uname",
   "df", "du", "free", "ps", "top -l 1", "uptime",
   "python --version", "python3 --version", "node --version", "npm --version",
   "which", "type", "file", "stat"]

/-- One entry of the `MODES` table. -/
structure ModeConfig where
  description : String
  permission_mode : Option String
  allowed_tools : Option String
  dangerously_skip : Bool
  emoji : String
deriving DecidableEq

/-- The `MODES` table from the source. -/
def MODES : List (String × ModeConfig) :=
  [("plan", ⟨"Plan only (no execution)", some "plan", none, false, ":memo:"⟩),
   ("readonly", ⟨"Read-only analysis", none, some "Read,Glob,Grep,WebSearch,WebFetch", false, ":eyes:"⟩),
   ("auto", ⟨"Auto-approve all (use with caution)", some "bypassPermissions", none, false, ":robot_face:"⟩),
   ("yolo", ⟨"Skip all permissions (dangerous!)", none, none, true, ":fire:"⟩)]

/-- The `MODELS` list from the source. -/
def MODELS : List String := ["sonnet", "opus", "haiku"]

/-- Outcome of the `subprocess.run` call inside `run_shell`. -/
inductive ShellExecResult where
  | output (stdout stderr : String)
  | notFound
  | timeout
  | failed (msg : String)
deriving DecidableEq

/-- Static configuration plus the oracles standing for the OS interfaces
(`os.path.expanduser`, `os.path.realpath`, `os.path.isdir`, `shlex.split`,
`subprocess.run` for shell commands, and the claude subprocess). -/
structure Config where
  ALLOWED_USERS : List String
  DEFAULT_CWD : String
  DEFAULT_MODEL : String
  DEFAULT_ALLOWED_TOOLS : String
  MACHINE_NAME : String
  CLAUDE_BIN : String
  SHELL_TIMEOUT : Nat
  expanduser : String → String
  realpath : String → Option String
  isdir : String → Bool
  shlexSplit : String → Option (List String)
  shellExec : List String → String → ShellExecResult
  claudeExec : List String → String → String × Option String

/-- Function `is_user_allowed` from the source. -/
def is_user_allowed (cfg : Config) (user_id : String) : Bool :=
  if cfg.ALLOWED_USERS.isEmpty then true else cfg.ALLOWED_USERS.contains user_id

/-- Function `is_shell_command_allowed` from the source: the lower-cased, stripped
command must start with an allow-listed prefix or with `cd `. -/
def is_shell_command_allowed (cmd_str : String) : Bool :=
  let cmd_lower := pyStrip (pyLower cmd_str)
  ALLOWED_SHELL_PREFIXES.any (fun p => pyStartsWith cmd_lower (pyLower p)) ||
    pyStartsWith cmd_lower "cd "

/-- The denial message `run_shell` returns for a non-allow-listed command. -/
def notAllowedMsg : String :=
  ":no_entry: Command not allowed. Allowed: " ++
    String.intercalate ", " (ALLOWED_SHELL_PREFIXES.take 5) ++ "..."

/-- Result of `run_shell`: the reply text and, when a process was actually
executed (or an execution was attempted), its argument vector and cwd. -/
structure ShellResult where
  message : String
  spawned : Option (List String × String)
deriving DecidableEq

/-- Function `run_shell` from the source. -/
def run_shell (cfg : Config) (cmd_str cwd : String) : ShellResult :=
  if is_shell_command_allowed cmd_str then
    match cfg.shlexSplit cmd_str with
    | none => ⟨"Invalid command syntax", none⟩
    | some args =>
      match cfg.shellExec args cwd with
      | .output o e =>
        let out := pyStrip (o ++ e)
        ⟨if out = "" then "(no output)" else out, some (args, cwd)⟩
      | .notFound => ⟨"Command not found: " ++ (pySplitMax1 cmd_str).1, some (args, cwd)⟩
      | .timeout => ⟨"Timeout (" ++ toString cfg.SHELL_TIMEOUT ++ "s)", some (args, cwd)⟩
      | .failed m => ⟨"Error: " ++ m, some (args, cwd)⟩
  else
    ⟨notAllowedMsg, none⟩

/-- The `--resume`/`--continue` portion of the claude command line
(`run_claude` lines: `if session_id: ... elif resume_last: ...`). -/
def resumeArgs (session_id : Option String) (resume_last : Bool) : List String :=
  match session_id with
  | some s =>
    if s = "" then (if resume_last then ["--continue"] else []) else ["--resume", s]
  | none => if resume_last then ["--continue"] else []

/-- Fixed head of the claude command line. -/
def claudeBase (cfg : Config) (prompt : String) : List String :=
  [cfg.CLAUDE_BIN, "-p", prompt, "--output-format", "json"]

/-- Lookup `MODES.get(mode, ...)` for an optional mode name, with no default entry. -/
def modeConfigOf (mode : Option String) : Option ModeConfig :=
  mode.bind (alookup MODES)

/-- Permission flags derived from the mode configuration. -/
def claudePermArgs (mode : Option String) : List String :=
  match modeConfigOf mode with
  | some mc =>
    if mc.dangerously_skip then ["--dangerously-skip-permissions"]
    else
      match mc.permission_mode with
      | some pm => if pm = "" then [] else ["--permission-mode", pm]
      | none => []
  | none => []

/-- The `--allowedTools` flags (`mode_config.get("allowed_tools") or DEFAULT_ALLOWED_TOOLS`). -/
def claudeToolArgs (cfg : Config) (mode : Option String) : List String :=
  let tools := pyOrS ((modeConfigOf mode).bind (fun mc => mc.allowed_tools)) cfg.DEFAULT_ALLOWED_TOOLS
  if tools = "" then [] else ["--allowedTools", tools]

/-- The `--model` flags (`model or DEFAULT_MODEL`, only when recognized). -/
def claudeModelArgs (cfg : Config) (model : Option String) : List String :=
  let em := pyOrS model cfg.DEFAULT_MODEL
  if em ≠ "" ∧ MODELS.contains em then ["--model", em] else []

/-- The full claude command line built by `run_claude`. -/
def claudeCmd (cfg : Config) (prompt : String) (session_id : Option String)
    (resume_last : Bool) (mode model : Option String) : List String :=
  claudeBase cfg prompt ++ resumeArgs session_id resume_last ++
    claudePermArgs mode ++ claudeToolArgs cfg mode ++ claudeModelArgs cfg model

/-- The session-argument preprocessing in `handle` before calling claude:
`resume_last = sid == "__continue__"; if resume_last: sid = None`. -/
def sessionArgsOf (stored : Option String) : Option String × Bool :=
  if stored = some "__continue__" then (none, true) else (stored, false)

/-- The mode words recognized by the prefix regex in `parse_prefix`. -/
def MODE_WORDS : List String := ["plan", "readonly", "auto", "yolo"]

/-- One application of the anchored regex `^(w1|...|wn):\s*(.+)$` (case
insensitive, DOTALL) followed by `.strip()` of the second group: succeeds
when the text starts (case-insensitively) with a listed word plus a colon
and at least one further character; the remainder is stripped. -/
def matchWordColon (words : List String) (s : String) : Option (String × String) :=
  words.findSome? fun w =>
    if pyStartsWith (pyLower s) (w ++ ":") && sdrop s (w.length + 1) != "" then
      some (w, pyStrip (sdrop s (w.length + 1)))
    else none

/-- Function `parse_prefix` from the source (mode word first, then model word);
returns the mode, the model and the remaining prompt. -/
def parse_prefixes (text : String) : Option String × Option String × String :=
  match matchWordColon MODE_WORDS text with
  | some (m, r1) =>
    match matchWordColon MODELS r1 with
    | some (mo, r2) => (some m, some mo, r2)
    | none => (some m, none, r1)
  | none =>
    match matchWordColon MODELS text with
    | some (mo, r2) => (none, some mo, r2)
    | none => (none, none, text)

/-- The per-thread mutable maps of the daemon. -/
structure DaemonState where
  sessions : StrMap
  thread_cwd : StrMap
  thread_mode : StrMap
  thread_model : StrMap
  active_threads : StrMap
deriving DecidableEq

/-- Function `get_cwd` from the source. -/
def get_cwd (cfg : Config) (st : DaemonState) (thread_ts : String) : String :=
  (alookup st.thread_cwd thread_ts).getD cfg.DEFAULT_CWD

/-- The mode shown by the `status` command (`thread_mode.get(t, "default")`). -/
def statusMode (st : DaemonState) (t : String) : String :=
  (alookup st.thread_mode t).getD "default"

/-- The model shown by the `status` command
(`thread_model.get(t, DEFAULT_MODEL or "default")`). -/
def statusModel (cfg : Config) (st : DaemonState) (t : String) : String :=
  (alookup st.thread_model t).getD (pyOrS (some cfg.DEFAULT_MODEL) "default")

/-- The session list portion of the `status` message. -/
def statusSessionLines (st : DaemonState) : List String :=
  if st.sessions.isEmpty then ["_No active sessions_"]
  else "*Sessions:*" :: st.sessions.map (fun p => "  `" ++ p.2 ++ "`")

/-- The full `status` reply text. -/
def statusMsg (cfg : Config) (st : DaemonState) (t : String) : String :=
  String.intercalate "\n"
    (["*" ++ cfg.MACHINE_NAME ++ " Status*",
      "cwd: `" ++ get_cwd cfg st t ++ "`",
      "mode: `" ++ statusMode st t ++ "`",
      "model: `" ++ statusModel cfg st t ++ "`",
      ""] ++ statusSessionLines st)

/-- Joined backquoted mode names, used in the unknown-mode reply. -/
def modesListStr : String :=
  String.intercalate ", " (MODES.map (fun p => "`" ++ p.1 ++ "`"))

/-- Joined backquoted model names, used in the unknown-model reply. -/
def modelsListStr : String :=
  String.intercalate ", " (MODELS.map (fun m => "`" ++ m ++ "`"))

/-- An inbound message as consumed by `handle` (`msg.get("text")`,
`msg.get("ts")`, `msg.get("thread_ts", ts)`, `msg.get("user")`). -/
structure Msg where
  text : String
  ts : String
  thread_ts : Option String
  user : String
deriving DecidableEq

/-- Observable result of one `handle` call: the successor state, the texts
sent to the thread, the shell subprocesses spawned, the claude invocations
performed (command line and cwd), and whether the process exited. -/
structure HandleResult where
  state : DaemonState
  sent : List String
  spawned : List (List String × String)
  claudeRuns : List (List String × String)
  exited : Bool
deriving DecidableEq

/-- A `handle` outcome that only replies (no subprocess, no exit). -/
def reply (st : DaemonState) (msgs : List String) : HandleResult :=
  ⟨st, msgs, [], [], false⟩

/-- The `cd` target path computed by the shell branch of `handle`:
`os.path.expanduser(cmd_str[3:].strip())` with `cmd_str = text[1:].strip()`
and `text = msg.get("text", "").strip()`. -/
def cdTargetPath (cfg : Config) (msg : Msg) : String :=
  cfg.expanduser (pyStrip (sdrop (pyStrip (sdrop (pyStrip msg.text) 1)) 3))

/-- The `!`-command branch of `handle` (source lines 498-524). -/
def shellBranch (cfg : Config) (st : DaemonState) (text ts thread_ts : String) : HandleResult :=
  let cmd_str := pyStrip (sdrop text 1)
  if cmd_str = "" then reply st []
  else
    let cwd := get_cwd cfg st thread_ts
    let st1 : DaemonState := { st with active_threads := minsert st.active_threads thread_ts ts }
    if pyStartsWith (pyLower cmd_str) "cd " then
      let path := cfg.expanduser (pyStrip (sdrop cmd_str 3))
      match cfg.realpath path with
      | some real_path =>
        if cfg.isdir real_path then
          let st2 : DaemonState := { st1 with thread_cwd := minsert st1.thread_cwd thread_ts real_path }
          reply st2 ["`" ++ real_path ++ "`"]
        else reply st1 ["Not found: `" ++ path ++ "`"]
      | none => reply st1 ["Invalid path"]
    else
      let res := run_shell cfg cmd_str cwd
      { state := st1,
        sent := ["```\n" ++ pyTake res.message 3000 ++ "\n```"],
        spawned := res.spawned.toList, claudeRuns := [], exited := false }

/-- The fall-through assistant branch of `handle` (source lines 526-562):
prefix parsing/persisting, acknowledgment, claude invocation, session update. -/
def claudeBranch (cfg : Config) (st : DaemonState) (text ts thread_ts : String) : HandleResult :=
  let pr := parse_prefixes text
  let prefix_mode := pr.1
  let prefix_model := pr.2.1
  let prompt := pr.2.2
  let mode := prefix_mode.or (alookup st.thread_mode thread_ts)
  let model := prefix_model.or (alookup st.thread_model thread_ts)
  let st1 : DaemonState :=
    match prefix_mode with
    | some m => { st with thread_mode := minsert st.thread_mode thread_ts m }
    | none => st
  let st2 : DaemonState :=
    match prefix_model with
    | some m => { st1 with thread_model := minsert st1.thread_model thread_ts m }
    | none => st1
  let cwd := get_cwd cfg st2 thread_ts
  let mode_emoji :=
    match modeConfigOf mode with
    | some mc => mc.emoji
    | none => ":hourglass_flowing_sand:"
  let model_str := pyOrS model (pyOrS (some cfg.DEFAULT_MODEL) "default")
  let ack := mode_emoji ++ " `" ++ cwd ++ "` (mode: " ++ pyOrS mode "default" ++ ", model: " ++ model_str ++ ")"
  let st3 : DaemonState := { st2 with active_threads := minsert st2.active_threads thread_ts ts }
  let sa := sessionArgsOf (alookup st3.sessions thread_ts)
  let cmd := claudeCmd cfg prompt sa.1 sa.2 mode model
  let r := cfg.claudeExec cmd cwd
  let st4 : DaemonState :=
    match r.2 with
    | some s => if s = "" then st3 else { st3 with sessions := minsert st3.sessions thread_ts s }
    | none => st3
  { state := st4,
    sent := ack :: chunkList r.1.data,
    spawned := [], claudeRuns := [(cmd, cwd)], exited := false }

/-- Function `handle` from the source, transcribed branch by branch. -/
def handle (cfg : Config) (st : DaemonState) (msg : Msg) : HandleResult :=
  let text := pyStrip msg.text
  let ts := msg.ts
  let thread_ts := msg.thread_ts.getD ts
  let user_id := msg.user
  if is_user_allowed cfg user_id = false then
    reply st [":no_entry: You are not authorized to use this daemon."]
  else
  let low := pyLower text
  if low = "stop" then
    { reply st [":red_circle: Daemon stopped"] with exited := true }
  else if low = "help" then
    reply st ["HELP_MSG"]
  else if low = "status" then
    reply st [statusMsg cfg st thread_ts]
  else if low = "new" then
    let st1 : DaemonState :=
      { st with sessions := merase st.sessions thread_ts,
                thread_mode := merase st.thread_mode thread_ts,
                thread_model := merase st.thread_model thread_ts }
    reply st1 ["New session started\ncwd: `" ++ get_cwd cfg st1 thread_ts ++ "`"]
  else if pyStartsWith low "mode" then
    match (pySplitMax1 text).2 with
    | some rest =>
      let mode_name := pyLower (pyStrip rest)
      match alookup MODES mode_name with
      | some mc =>
        let st1 : DaemonState := { st with thread_mode := minsert st.thread_mode thread_ts mode_name }
        reply st1 [mc.emoji ++ " Mode set to `" ++ mode_name ++ "`\n_" ++ mc.description ++ "_"]
      | none =>
        if mode_name = "default" then
          let st1 : DaemonState := { st with thread_mode := merase st.thread_mode thread_ts }
          reply st1 [":arrows_counterclockwise: Mode reset to default"]
        else
          reply st ["Unknown mode. Available: " ++ modesListStr ++ ", `default`"]
    | none =>
      reply st ["Current mode: `" ++ (alookup st.thread_mode thread_ts).getD "default" ++ "`"]
  else if pyStartsWith low "model" then
    match (pySplitMax1 text).2 with
    | some rest =>
      let model_name := pyLower (pyStrip rest)
      if MODELS.contains model_name then
        let st1 : DaemonState := { st with thread_model := minsert st.thread_model thread_ts model_name }
        reply st1 [":brain: Model set to `" ++ model_name ++ "`"]
      else if model_name = "default" then
        let st1 : DaemonState := { st with thread_model := merase st.thread_model thread_ts }
        reply st1 [":arrows_counterclockwise: Model reset to default (" ++ pyOrS (some cfg.DEFAULT_MODEL) "auto" ++ ")"]
      else
        reply st ["Unknown model. Available: " ++ modelsListStr ++ ", `default`"]
    | none =>
      reply st ["Current model: `" ++ (alookup st.thread_model thread_ts).getD (pyOrS (some cfg.DEFAULT_MODEL) "default") ++ "`"]
  else if pyStartsWith low "resume" then
    match (pySplitMax1 text).2 with
    | some rest =>
      let sid := pyStrip rest
      let st1 : DaemonState := { st with sessions := minsert st.sessions thread_ts sid }
      reply st1 ["Resuming session `" ++ sid ++ "`\ncwd: `" ++ get_cwd cfg st1 thread_ts ++ "`"]
    | none =>
      let st1 : DaemonState := { st with sessions := minsert st.sessions thread_ts "__continue__" }
      reply st1 ["Resuming last session\ncwd: `" ++ get_cwd cfg st1 thread_ts ++ "`"]
  else if pyStartsWith text "!" then
    shellBranch cfg st text ts thread_ts
  else
    claudeBranch cfg st text ts thread_ts

/-- A message as seen by the poll loop: its transport id (the float value of
the `ts` string) and the fields consulted by the skip test. -/
structure PollMsg where
  ts : ℚ
  bot : Bool
  user : String
  text : String
deriving DecidableEq

/-- The skip test of the top-level poll sub-loop:
`if bot_id or user == bot_user_id or not m.get("text", "").strip()`. -/
def shouldSkip (botUser : String) (m : PollMsg) : Bool :=
  m.bot || m.user == botUser || pyStrip m.text == ""

/-- One iteration of the poll sub-loop body: the new cursor (always the
message's id) and whether the message was dispatched. -/
def pollStep (botUser : String) (_cursor : ℚ) (m : PollMsg) : ℚ × Bool :=
  (m.ts, !shouldSkip botUser m)

/-- The poll sub-loop over an already-sorted batch: threads the cursor
through `pollStep` and collects the dispatched messages. -/
def pollRun (botUser : String) : ℚ → List PollMsg → ℚ × List PollMsg
  | c, [] => (c, [])
  | c, m :: rest =>
    let s := pollStep botUser c m
    let r := pollRun botUser s.1 rest
    (r.1, (if s.2 then [m] else []) ++ r.2)

/-- The ascending-id order used by `msgs.sort(key=lambda m: float(m.ts))`. -/
def tsLe (a b : PollMsg) : Prop := a.ts ≤ b.ts

instance : DecidableRel tsLe := fun a b => inferInstanceAs (Decidable (a.ts ≤ b.ts))

instance : IsTotal PollMsg tsLe := ⟨fun a b => le_total a.ts b.ts⟩

instance : IsTrans PollMsg tsLe := ⟨fun _ _ _ h1 h2 => le_trans h1 h2⟩

/-- One full poll round: sort the fetched batch by id ascending
(`msgs.sort(key=...)`, a stable sort) and run the sub-loop. -/
def pollRound (botUser : String) (c : ℚ) (msgs : List PollMsg) : ℚ × List PollMsg :=
  pollRun botUser c (List.insertionSort tsLe msgs)

/-- One page of the `conversations.history` response as consumed by
`fetch_messages`. -/
structure Page where
  messages : List PollMsg
  has_more : Bool
  next_cursor : String
deriving DecidableEq

/-- The transport oracle: the page returned for a given pagination cursor
(`none` models a `SlackAPIError`, which makes the loop break). -/
structure Transport where
  page : Option String → Option Page

/-- The `while True` pagination loop of `fetch_messages`, with explicit
fuel; `none` means the loop is still running after `fuel` iterations. -/
def fetchLoop (t : Transport) (limit : Nat) :
    Nat → List PollMsg → Option String → Option (List PollMsg)
  | 0, _, _ => none
  | fuel + 1, acc, cursor =>
    match t.page cursor with
    | none => some acc
    | some pg =>
      let acc1 := acc ++ pg.messages
      if pg.has_more ∧ acc1.length < limit then
        if pg.next_cursor = "" then some acc1
        else fetchLoop t limit fuel acc1 (some pg.next_cursor)
      else some acc1

/-- Function `fetch_messages` with the default cap of 50, starting from an empty
accumulator and no cursor. -/
def fetch_messages_fuel (t : Transport) (fuel : Nat) : Option (List PollMsg) :=
  fetchLoop t 50 fuel [] none

/-- Termination of `fetch_messages` against a given transport: some finite
number of iterations suffices. -/
def fetchTerminates (t : Transport) : Prop :=
  ∃ fuel, (fetch_messages_fuel t fuel).isSome

/-- A transport stub that always reports `has_more` with an empty next
cursor (the termination test case of the spec). -/
def stubEmptyCursor (msgs : List PollMsg) : Transport :=
  ⟨fun _ => some ⟨msgs, true, ""⟩⟩

/-- An adversarial transport: every page is empty, reports `has_more`, and
supplies a nonempty next cursor. -/
def advTransport : Transport :=
  ⟨fun _ => some ⟨[], true, "next"⟩⟩

/-- A transport stub whose single page reports no further pages. -/
def stubNoMore (msgs : List PollMsg) : Transport :=
  ⟨fun _ => some ⟨msgs, false, "c"⟩⟩

/-- A permissive concrete configuration used to exercise the definitions:
open user allow-list, no default model or tools, identity-style filesystem
oracles with a single existing directory `/srv/proj`. -/
def cfgW : Config :=
  { ALLOWED_USERS := [], DEFAULT_CWD := "/home/u", DEFAULT_MODEL := "",
    DEFAULT_ALLOWED_TOOLS := "", MACHINE_NAME := "m", CLAUDE_BIN := "claude",
    SHELL_TIMEOUT := 30,
    expanduser := fun s => if s = "~" then "/home/u" else s,
    realpath := fun s => some s,
    isdir := fun s => s = "/srv/proj",
    shlexSplit := fun _ => none,
    shellExec := fun _ _ => .timeout,
    claudeExec := fun _ _ => ("ok", some "S1") }

/-- Configuration `cfgW` with a configured default model (`CLAUDE_MODEL=opus`). -/
def cfgOpus : Config :=
  { cfgW with DEFAULT_MODEL := "opus" }

/-- Configuration `cfgW` restricted to a single allowed user. -/
def cfgOnlyAlice : Config :=
  { cfgW with ALLOWED_USERS := ["alice"] }

/-- The empty daemon state (fresh start, no persisted file). -/
def st0 : DaemonState := ⟨[], [], [], [], []⟩

/-- A populated daemon state used to exercise clearing and framing. -/
def stBusy : DaemonState :=
  ⟨[("T", "sess-1"), ("U", "sess-2")], [("T", "/srv/proj")],
   [("T", "auto")], [("T", "haiku")], [("U", "9.0")]⟩

/-! ## Helper lemmas -/

theorem alookup_minsert_self (m : StrMap) (k v : String) :
    alookup (minsert m k v) k = some v := by
  induction m with
  | nil => simp [minsert, alookup]
  | cons p rest ih =>
    by_cases h : k = p.1
    · simp [minsert, h, alookup]
    · simp [minsert, h, alookup, ih]

theorem alookup_minsert_ne (m : StrMap) (k v k' : String) (h : k' ≠ k) :
    alookup (minsert m k v) k' = alookup m k' := by
  induction m with
  | nil => simp [minsert, alookup, h]
  | cons p rest ih =>
    by_cases hk : k = p.1
    · subst hk
      simp [minsert, alookup, h]
    · by_cases hk' : k' = p.1
      · simp [minsert, hk, alookup, hk']
      · simp [minsert, hk, alookup, hk', ih]

theorem alookup_merase_self (m : StrMap) (k : String) :
    alookup (merase m k) k = none := by
  induction m with
  | nil => simp [merase, alookup]
  | cons p rest ih =>
    by_cases h : k = p.1
    · subst h
      simp [merase, ih]
    · simp [merase, h, alookup, ih]

theorem alookup_merase_ne (m : StrMap) (k k' : String) (h : k' ≠ k) :
    alookup (merase m k) k' = alookup m k' := by
  induction m with
  | nil => simp [merase]
  | cons p rest ih =>
    by_cases hk : k = p.1
    · subst hk
      simp [merase, alookup, ih, fun hh => h (hh : k' = p.1)]
    · simp [merase, hk, alookup, ih]

theorem isPrefixOf_cons_cons (a b : Char) (l1 l2 : List Char) :
    List.isPrefixOf (a :: l1) (b :: l2) = (a == b && List.isPrefixOf l1 l2) := rfl

theorem not_isPrefixOf_of_head_ne {a b : Char} (l1 l2 : List Char) (h : a ≠ b) :
    List.isPrefixOf (a :: l1) (b :: l2) = false := by
  rw [isPrefixOf_cons_cons]
  simp [h]

theorem string_ne_of_head_ne {s t : String} {a b : Char} {l1 l2 : List Char}
    (hs : s.data = a :: l1) (ht : t.data = b :: l2) (h : a ≠ b) : s ≠ t := by
  intro he
  rw [he, ht] at hs
  exact h (List.head_eq_of_cons_eq hs).symm

theorem pyLower_data_of (t : String) (c : Char) (l : List Char) (h : t.data = c :: l) :
    (pyLower t).data = Char.toLower c :: l.map Char.toLower := by
  simp [pyLower, h]

theorem pyStartsWith_bang_of (t : String) (l : List Char) (h : t.data = '!' :: l) :
    pyStartsWith t "!" = true := by
  simp [pyStartsWith, h, List.isPrefixOf]

theorem handle_eq_shellBranch (cfg : Config) (st : DaemonState) (msg : Msg) (l : List Char)
    (hu : is_user_allowed cfg msg.user = true)
    (hb : (pyStrip msg.text).data = '!' :: l) :
    handle cfg st msg = shellBranch cfg st (pyStrip msg.text) msg.ts (msg.thread_ts.getD msg.ts) := by
  have hlow : (pyLower (pyStrip msg.text)).data = '!' :: l.map Char.toLower := by
    rw [pyLower_data_of _ _ _ hb]
    rw [show Char.toLower '!' = '!' from by decide]
  have f1 : pyLower (pyStrip msg.text) ≠ "stop" :=
    string_ne_of_head_ne hlow (rfl : ("stop" : String).data = 's' :: ['t', 'o', 'p']) (by decide)
  have f2 : pyLower (pyStrip msg.text) ≠ "help" :=
    string_ne_of_head_ne hlow (rfl : ("help" : String).data = 'h' :: ['e', 'l', 'p']) (by decide)
  have f3 : pyLower (pyStrip msg.text) ≠ "status" :=
    string_ne_of_head_ne hlow (rfl : ("status" : String).data = 's' :: ['t', 'a', 't', 'u', 's']) (by decide)
  have f4 : pyLower (pyStrip msg.text) ≠ "new" :=
    string_ne_of_head_ne hlow (rfl : ("new" : String).data = 'n' :: ['e', 'w']) (by decide)
  have f5 : pyStartsWith (pyLower (pyStrip msg.text)) "mode" = false := by
    rw [pyStartsWith, hlow]
    exact not_isPrefixOf_of_head_ne _ _ (by decide)
  have f6 : pyStartsWith (pyLower (pyStrip msg.text)) "model" = false := by
    rw [pyStartsWith, hlow]
    exact not_isPrefixOf_of_head_ne _ _ (by decide)
  have f7 : pyStartsWith (pyLower (pyStrip msg.text)) "resume" = false := by
    rw [pyStartsWith, hlow]
    exact not_isPrefixOf_of_head_ne _ _ (by decide)
  have f8 : pyStartsWith (pyStrip msg.text) "!" = true := pyStartsWith_bang_of _ _ hb
  simp only [handle, hu, f1, f2, f3, f4, f5, f6, f7, f8]
  simp

theorem handle_eq_claudeBranch (cfg : Config) (st : DaemonState) (msg : Msg)
    (hu : is_user_allowed cfg msg.user = true)
    (f1 : pyLower (pyStrip msg.text) ≠ "stop")
    (f2 : pyLower (pyStrip msg.text) ≠ "help")
    (f3 : pyLower (pyStrip msg.text) ≠ "status")
    (f4 : pyLower (pyStrip msg.text) ≠ "new")
    (f5 : pyStartsWith (pyLower (pyStrip msg.text)) "mode" = false)
    (f7 : pyStartsWith (pyLower (pyStrip msg.text)) "resume" = false)
    (f8 : pyStartsWith (pyStrip msg.text) "!" = false) :
    handle cfg st msg = claudeBranch cfg st (pyStrip msg.text) msg.ts (msg.thread_ts.getD msg.ts) := by
  have f6 : pyStartsWith (pyLower (pyStrip msg.text)) "model" = false := by
    rw [pyStartsWith] at f5 ⊢
    by_contra hcon
    rw [Bool.not_eq_false, List.isPrefixOf_iff_prefix] at hcon
    have h2 : ("mode" : String).data <+: (pyLower (pyStrip msg.text)).data :=
      List.IsPrefix.trans ⟨['l'], rfl⟩ hcon
    rw [← List.isPrefixOf_iff_prefix, f5] at h2
    exact Bool.false_ne_true h2
  simp only [handle, hu, f1, f2, f3, f4, f5, f6, f7, f8]
  simp

theorem run_shell_not_allowed (cfg : Config) (cmd_str cwd : String)
    (h : is_shell_command_allowed cmd_str = false) :
    run_shell cfg cmd_str cwd = ⟨notAllowedMsg, none⟩ := by
  simp [run_shell, h]

/-- Claim C1: a `!` shell command whose lower-cased, trimmed text starts
with no configured allow-list prefix and does not start with `cd ` makes
the shell executor return the "Command not allowed" message and spawn no
subprocess. -/
theorem C1_shell_denied_no_exec (cfg : Config) (cmd_str cwd : String)
    (h1 : ∀ p ∈ ALLOWED_SHELL_PREFIXES,
      pyStartsWith (pyStrip (pyLower cmd_str)) (pyLower p) = false)
    (h2 : pyStartsWith (pyStrip (pyLower cmd_str)) "cd " = false) :
    run_shell cfg cmd_str cwd = ⟨notAllowedMsg, none⟩ ∧
      (run_shell cfg cmd_str cwd).spawned = none := by
  have hfalse : is_shell_command_allowed cmd_str = false := by
    rw [is_shell_command_allowed]
    simp only [Bool.or_eq_false_iff]
    constructor
    · rw [List.any_eq_false]
      intro p hp
      simp [h1 p hp]
    · exact h2
  refine ⟨run_shell_not_allowed cfg cmd_str cwd hfalse, ?_⟩
  rw [run_shell_not_allowed cfg cmd_str cwd hfalse]

theorem C1_witness :
    (∀ p ∈ ALLOWED_SHELL_PREFIXES,
      pyStartsWith (pyStrip (pyLower "rm -rf /")) (pyLower p) = false) ∧
    run_shell cfgW "rm -rf /" "/home/u" = ⟨notAllowedMsg, none⟩ :=
  ⟨by decide,
   (C1_shell_denied_no_exec cfgW "rm -rf /" "/home/u" (by decide) (by decide)).1⟩

/-- Claim C9: per thread the stored session slot holds either a concrete
session id or the `__continue__` sentinel, never both; the preprocessing in
`handle` passes mutually exclusive resume arguments, and the resume portion
of the claude command line is `[]`, `--continue`, or `--resume <id>` —
never both flags. -/
theorem C9_session_resume_exclusive :
    (∀ (sid : Option String) (rl : Bool),
      resumeArgs sid rl = [] ∨ resumeArgs sid rl = ["--continue"] ∨
        ∃ s, resumeArgs sid rl = ["--resume", s]) ∧
    (∀ stored : Option String,
      (sessionArgsOf stored).2 = true → (sessionArgsOf stored).1 = none) ∧
    (∀ (stored : Option String) (s : String),
      (sessionArgsOf stored).1 = some s → (sessionArgsOf stored).2 = false) ∧
    (∀ (cfg : Config) (prompt : String) (sid : Option String) (rl : Bool)
        (mo md : Option String),
      claudeCmd cfg prompt sid rl mo md =
        claudeBase cfg prompt ++ resumeArgs sid rl ++ claudePermArgs mo ++
          claudeToolArgs cfg mo ++ claudeModelArgs cfg md) := by
  refine ⟨?_, ?_, ?_, ?_⟩
  · intro sid rl
    rcases sid with _ | s
    · cases rl
      · exact Or.inl rfl
      · exact Or.inr (Or.inl rfl)
    · by_cases hs : s = ""
      · cases rl
        · simp [resumeArgs, hs]
        · simp [resumeArgs, hs]
      · exact Or.inr (Or.inr ⟨s, by simp [resumeArgs, hs]⟩)
  · intro stored h
    rw [sessionArgsOf] at h ⊢
    by_cases hc : stored = some "__continue__"
    · simp [hc]
    · simp [hc] at h
  · intro stored s h
    rw [sessionArgsOf] at h ⊢
    by_cases hc : stored = some "__continue__"
    · simp [hc] at h
    · simp [hc]
  · intro cfg prompt sid rl mo md
    rfl

theorem C9_witness :
    (sessionArgsOf (some "__continue__")).1 = none ∧
    (sessionArgsOf (some "abc123")).2 = false ∧
    (resumeArgs none true = [] ∨ resumeArgs none true = ["--continue"] ∨
      ∃ s, resumeArgs none true = ["--resume", s]) :=
  ⟨C9_session_resume_exclusive.2.1 (some "__continue__") (by decide),
   C9_session_resume_exclusive.2.2.1 (some "abc123") "abc123" (by decide),
   C9_session_resume_exclusive.1 none true⟩

/-- Claim C4 (code-bug evidence): the message `model sonnet` is captured by
the `mode` branch (`low.startswith("mode")` also matches `model ...`), so
the daemon replies "Unknown mode ..." and leaves the thread's model unset,
while the help text and the unreachable `model` branch intend it to set the
model to `sonnet`. -/
theorem C4_model_command_shadowed :
    handle cfgW st0 ⟨"model sonnet", "1.0", none, "u"⟩ =
      reply st0 ["Unknown mode. Available: `plan`, `readonly`, `auto`, `yolo`, `default`"] ∧
    (handle cfgW st0 ⟨"model sonnet", "1.0", none, "u"⟩).state.thread_model = [] := by
  constructor
  · decide
  · decide

/-- Claim C3 (amended): when the sending user is not allowed, `handle` only
reports the denial — the state is exactly unchanged and nothing is spawned;
when an allowed user's non-`cd` `!` command is denied by the allow-list,
the sessions, working directories, modes and models are unchanged and no
subprocess is spawned, but the thread's active-thread marker is set to the
message's ts (it is assigned before the allow-list check). -/
theorem C3_denied_state_effects (cfg : Config) (st : DaemonState) (msg : Msg) :
    (is_user_allowed cfg msg.user = false →
      handle cfg st msg = reply st [":no_entry: You are not authorized to use this daemon."]) ∧
    (∀ l : List Char, is_user_allowed cfg msg.user = true →
      (pyStrip msg.text).data = '!' :: l →
      pyStrip (sdrop (pyStrip msg.text) 1) ≠ "" →
      is_shell_command_allowed (pyStrip (sdrop (pyStrip msg.text) 1)) = false →
      pyStartsWith (pyLower (pyStrip (sdrop (pyStrip msg.text) 1))) "cd " = false →
      (handle cfg st msg).state.sessions = st.sessions ∧
      (handle cfg st msg).state.thread_cwd = st.thread_cwd ∧
      (handle cfg st msg).state.thread_mode = st.thread_mode ∧
      (handle cfg st msg).state.thread_model = st.thread_model ∧
      (handle cfg st msg).state.active_threads =
        minsert st.active_threads (msg.thread_ts.getD msg.ts) msg.ts ∧
      (handle cfg st msg).spawned = [] ∧
      (handle cfg st msg).sent = ["```\n" ++ pyTake notAllowedMsg 3000 ++ "\n```"]) := by
  constructor
  · intro hdeny
    simp [handle, hdeny]
  · intro l hu hb hne hden hcd
    rw [handle_eq_shellBranch cfg st msg l hu hb]
    simp only [shellBranch]
    rw [if_neg hne, hcd, run_shell_not_allowed cfg _ _ hden]
    simp

theorem C3_counterexample :
    (handle cfgW st0 ⟨"!rm -rf /", "5.0", none, "u"⟩).sent =
      ["```\n" ++ pyTake notAllowedMsg 3000 ++ "\n```"] ∧
    (handle cfgW st0 ⟨"!rm -rf /", "5.0", none, "u"⟩).spawned = [] ∧
    (handle cfgW st0 ⟨"!rm -rf /", "5.0", none, "u"⟩).state ≠ st0 := by
  refine ⟨by decide, by decide, by decide⟩

theorem C3_witness :
    handle cfgOnlyAlice st0 ⟨"hello", "1.0", none, "bob"⟩ =
      reply st0 [":no_entry: You are not authorized to use this daemon."] ∧
    (handle cfgW st0 ⟨"!rm -rf /", "5.0", none, "u"⟩).state.sessions = st0.sessions :=
  ⟨(C3_denied_state_effects cfgOnlyAlice st0 ⟨"hello", "1.0", none, "bob"⟩).1 (by decide),
   ((C3_denied_state_effects cfgW st0 ⟨"!rm -rf /", "5.0", none, "u"⟩).2
      ['r', 'm', ' ', '-', 'r', 'f', ' ', '/']
      (by decide) (by decide) (by decide) (by decide) (by decide)).1⟩

/-- Claim C2: a `!cd <path>` command expands the home shorthand, resolves
the path with `realpath`, and stores the canonical result as the thread's
working directory exactly when it is an existing directory; on rejection
(or a resolution error) the stored working directory is unchanged, and
after acceptance `get_cwd` for that thread is the canonical path, not the
user-supplied text. -/
theorem C2_cd_canonical (cfg : Config) (st : DaemonState) (msg : Msg) (l : List Char)
    (hu : is_user_allowed cfg msg.user = true)
    (hb : (pyStrip msg.text).data = '!' :: l)
    (hcd : pyStartsWith (pyLower (pyStrip (sdrop (pyStrip msg.text) 1))) "cd " = true) :
    (∀ rp, cfg.realpath (cdTargetPath cfg msg) = some rp → cfg.isdir rp = true →
      (handle cfg st msg).state.thread_cwd =
        minsert st.thread_cwd (msg.thread_ts.getD msg.ts) rp ∧
      get_cwd cfg (handle cfg st msg).state (msg.thread_ts.getD msg.ts) = rp) ∧
    (∀ rp, cfg.realpath (cdTargetPath cfg msg) = some rp → cfg.isdir rp = false →
      (handle cfg st msg).state.thread_cwd = st.thread_cwd) ∧
    (cfg.realpath (cdTargetPath cfg msg) = none →
      (handle cfg st msg).state.thread_cwd = st.thread_cwd) := by
  have hne : pyStrip (sdrop (pyStrip msg.text) 1) ≠ "" := by
    intro h
    rw [h] at hcd
    exact absurd hcd (by decide)
  have heq := handle_eq_shellBranch cfg st msg l hu hb
  refine ⟨?_, ?_, ?_⟩
  · intro rp hrp hdir
    rw [heq]
    simp only [shellBranch]
    rw [if_neg hne, hcd]
    simp only [cdTargetPath] at hrp
    simp only [hrp, hdir]
    constructor
    · simp [reply]
    · simp [reply, get_cwd, alookup_minsert_self]
  · intro rp hrp hdir
    rw [heq]
    simp only [shellBranch]
    rw [if_neg hne, hcd]
    simp only [cdTargetPath] at hrp
    simp only [hrp, hdir]
    simp [reply]
  · intro hrp
    rw [heq]
    simp only [shellBranch]
    rw [if_neg hne, hcd]
    simp only [cdTargetPath] at hrp
    simp only [hrp]
    simp [reply]

theorem C2_witness :
    get_cwd cfgW (handle cfgW st0 ⟨"!cd /srv/proj", "2.0", none, "u"⟩).state "2.0" = "/srv/proj" ∧
    (handle cfgW st0 ⟨"!cd /etc/missing", "3.0", none, "u"⟩).state.thread_cwd = st0.thread_cwd :=
  ⟨((C2_cd_canonical cfgW st0 ⟨"!cd /srv/proj", "2.0", none, "u"⟩
      ['c', 'd', ' ', '/', 's', 'r', 'v', '/', 'p', 'r', 'o', 'j']
      (by decide) (by decide) (by decide)).1 "/srv/proj" (by decide) (by decide)).2,
   (C2_cd_canonical cfgW st0 ⟨"!cd /etc/missing", "3.0", none, "u"⟩
      ['c', 'd', ' ', '/', 'e', 't', 'c', '/', 'm', 'i', 's', 's', 'i', 'n', 'g']
      (by decide) (by decide) (by decide)).2.1 "/etc/missing" (by decide) (by decide)⟩

theorem dropWhile_idem (p : Char → Bool) (l : List Char) :
    (l.dropWhile p).dropWhile p = l.dropWhile p := by
  induction l with
  | nil => rfl
  | cons a t ih =>
    rw [List.dropWhile_cons]
    by_cases h : p a = true
    · rw [if_pos h]
      exact ih
    · rw [if_neg h, List.dropWhile_cons, if_neg h]

theorem stripR_eq_self_iff (l : List Char) :
    stripR l = l ↔ ∀ c, l.getLast? = some c → wsp c = false := by
  constructor
  · intro h c hc
    by_contra hw
    rw [Bool.not_eq_false] at hw
    rcases hrev : l.reverse with _ | ⟨a, t⟩
    · rw [← List.head?_reverse, hrev] at hc
      exact Option.noConfusion hc
    · have ha : a = c := by
        rw [← List.head?_reverse, hrev] at hc
        exact Option.some.inj hc
      subst ha
      have h2 : stripR l = (t.dropWhile wsp).reverse := by
        rw [stripR, hrev, List.dropWhile_cons, if_pos hw]
      rw [h2] at h
      have h3 : t.dropWhile wsp = a :: t := by
        have := congrArg List.reverse h
        rw [List.reverse_reverse, hrev] at this
        exact this
      have h4 : (t.dropWhile wsp).length ≤ t.length :=
        (List.dropWhile_suffix wsp).length_le
      rw [h3] at h4
      simp at h4
  · intro h
    rw [stripR]
    rcases hrev : l.reverse with _ | ⟨a, t⟩
    · simp only [List.dropWhile_nil]
      rw [← hrev, List.reverse_reverse]
    · have ha : l.getLast? = some a := by
        rw [← List.head?_reverse, hrev]
        rfl
      rw [List.dropWhile_cons, if_neg (by simp [h a ha]), ← hrev, List.reverse_reverse]

theorem getLast?_drop_ne (l : List Char) (n : Nat) (h : l.drop n ≠ []) :
    (l.drop n).getLast? = l.getLast? := by
  induction n generalizing l with
  | zero => simp
  | succ n ih =>
    rcases l with _ | ⟨a, t⟩
    · simp at h
    · rw [List.drop_succ_cons] at h ⊢
      rw [ih t h]
      rcases ht : t with _ | ⟨b, t2⟩
      · rw [ht] at h
        simp at h
      · simp

theorem stripR_drop (l : List Char) (n : Nat) (h : stripR l = l) :
    stripR (l.drop n) = l.drop n := by
  rcases hd : l.drop n with _ | ⟨a, t⟩
  · rfl
  · rw [← hd]
    rw [stripR_eq_self_iff]
    intro c hc
    rw [getLast?_drop_ne l n (by rw [hd]; exact List.cons_ne_nil a t)] at hc
    exact (stripR_eq_self_iff l).mp h c hc

theorem pyStripL_ne_nil (l : List Char) (h : stripR l = l) (hne : l ≠ []) :
    pyStripL l ≠ [] := by
  obtain ⟨c, hc⟩ := Option.isSome_iff_exists.mp (List.getLast?_isSome.mpr hne)
  have hcw : wsp c = false := (stripR_eq_self_iff l).mp h c hc
  have hA : stripL l ≠ [] := by
    intro hnil
    rw [stripL, List.dropWhile_eq_nil_iff] at hnil
    have := hnil c (List.mem_of_getLast?_eq_some hc)
    rw [hcw] at this
    exact Bool.false_ne_true this
  have hB : (stripL l).getLast? = some c := by
    obtain ⟨t, ht⟩ := List.dropWhile_suffix (l := l) wsp
    obtain ⟨d, hd⟩ := Option.isSome_iff_exists.mp (List.getLast?_isSome.mpr hA)
    rw [← ht, List.getLast?_append] at hc
    rw [stripL] at hd
    rw [hd] at hc
    simp only [Option.or_some] at hc
    rw [stripL, hd, hc]
  intro hnil
  rw [pyStripL, stripR] at hnil
  rw [List.reverse_eq_nil_iff, List.dropWhile_eq_nil_iff] at hnil
  have := hnil c (List.mem_reverse.mpr (List.mem_of_getLast?_eq_some hB))
  rw [hcw] at this
  exact Bool.false_ne_true this

theorem stripR_idem (l : List Char) : stripR (stripR l) = stripR l := by
  rw [stripR, stripR, List.reverse_reverse, dropWhile_idem]

theorem stripR_pyStripL (l : List Char) : stripR (pyStripL l) = pyStripL l := by
  rw [pyStripL]
  exact stripR_idem (stripL l)

theorem matchWordColon_inv (words : List String) (s w r : String)
    (h : matchWordColon words s = some (w, r)) :
    r = pyStrip (sdrop s (w.length + 1)) ∧ sdrop s (w.length + 1) ≠ "" := by
  induction words with
  | nil => exact Option.noConfusion h
  | cons w0 rest ih =>
    rw [matchWordColon, List.findSome?_cons] at h
    by_cases hc : (pyStartsWith (pyLower s) (w0 ++ ":") && sdrop s (w0.length + 1) != "") = true
    · rw [if_pos hc] at h
      obtain ⟨hw, hr⟩ := Prod.mk.injEq .. ▸ Option.some.inj h
      subst hw
      refine ⟨hr.symm, ?_⟩
      have h2 := (Bool.and_eq_true _ _).mp hc
      exact bne_iff_ne.mp h2.2
    · rw [if_neg hc] at h
      exact ih h

/-- Claim C10: a message that is just a prefix token (`auto:` with nothing,
or only whitespace, after the colon — the handler strips the message first)
is not treated as a prefix: `parse_prefix` returns it unchanged with no
mode/model, the thread's stored mode and model are untouched, and on
right-trimmed text a prefix is only ever stripped when the resulting
prompt is non-empty. -/
theorem C10_bare_prefix_token :
    (∀ w ∈ MODE_WORDS ++ MODELS, parse_prefixes (w ++ ":") = (none, none, w ++ ":")) ∧
    (handle cfgW st0 ⟨"auto:", "6.0", none, "u"⟩).state.thread_mode = st0.thread_mode ∧
    (handle cfgW st0 ⟨"auto:", "6.0", none, "u"⟩).state.thread_model = st0.thread_model ∧
    (handle cfgW st0 ⟨"auto:   ", "6.5", none, "u"⟩).state.thread_mode = st0.thread_mode ∧
    (handle cfgW st0 ⟨"auto:   ", "6.5", none, "u"⟩).state.thread_model = st0.thread_model ∧
    (∀ s : String, stripR s.data = s.data →
      ((parse_prefixes s).1.isSome ∨ (parse_prefixes s).2.1.isSome) →
      (parse_prefixes s).2.2 ≠ "") := by
  have main : ∀ (t : String), stripR t.data = t.data →
      ∀ (words : List String) (w r : String), matchWordColon words t = some (w, r) →
      r ≠ "" ∧ stripR r.data = r.data := by
    intro t ht words w r h
    obtain ⟨hr, hne⟩ := matchWordColon_inv words t w r h
    have hdata : r.data = pyStripL (t.data.drop (w.length + 1)) := by
      rw [hr]
      rfl
    have hdrop : stripR (t.data.drop (w.length + 1)) = t.data.drop (w.length + 1) :=
      stripR_drop _ _ ht
    have hdropne : t.data.drop (w.length + 1) ≠ [] := by
      intro hh
      apply hne
      apply String.ext
      rw [sdrop, hh]
    constructor
    · intro hh
      rw [hh] at hdata
      exact pyStripL_ne_nil _ hdrop hdropne hdata.symm
    · rw [hdata]
      exact stripR_pyStripL _
  refine ⟨by decide, by decide, by decide, by decide, by decide, ?_⟩
  intro s hR hSome
  rcases hm : matchWordColon MODE_WORDS s with _ | ⟨w, r1⟩
  · rcases hmo : matchWordColon MODELS s with _ | ⟨w2, r2⟩
    · exfalso
      simp only [parse_prefixes, hm, hmo] at hSome
      simp at hSome
    · obtain ⟨hne2, _⟩ := main s hR MODELS w2 r2 hmo
      simp only [parse_prefixes, hm, hmo]
      exact hne2
  · obtain ⟨hne1, hR1⟩ := main s hR MODE_WORDS w r1 hm
    rcases hmo : matchWordColon MODELS r1 with _ | ⟨w2, r2⟩
    · simp only [parse_prefixes, hm, hmo]
      exact hne1
    · obtain ⟨hne2, _⟩ := main r1 hR1 MODELS w2 r2 hmo
      simp only [parse_prefixes, hm, hmo]
      exact hne2

theorem C10_witness :
    parse_prefixes ("auto" ++ ":") = (none, none, "auto" ++ ":") ∧
    (parse_prefixes "auto: fix it").2.2 ≠ "" :=
  ⟨C10_bare_prefix_token.1 "auto" (by decide),
   C10_bare_prefix_token.2.2.2.2.2 "auto: fix it" (by decide) (Or.inl (by decide))⟩

/-- Claim C7 (amended): `new` removes the thread's session id, mode and
model and leaves its working directory (and every other thread's entries)
unchanged; the subsequent `status` components for the thread are
mode=`default`, model = the configured default model when one is set
(the literal `default` only when `DEFAULT_MODEL` is empty), no session id,
and the same working directory as before. -/
theorem C7_new_clears_thread (cfg : Config) (st : DaemonState) (msg : Msg)
    (hu : is_user_allowed cfg msg.user = true)
    (hlow : pyLower (pyStrip msg.text) = "new") :
    (handle cfg st msg).state.sessions = merase st.sessions (msg.thread_ts.getD msg.ts) ∧
    (handle cfg st msg).state.thread_mode = merase st.thread_mode (msg.thread_ts.getD msg.ts) ∧
    (handle cfg st msg).state.thread_model = merase st.thread_model (msg.thread_ts.getD msg.ts) ∧
    (handle cfg st msg).state.thread_cwd = st.thread_cwd ∧
    (handle cfg st msg).state.active_threads = st.active_threads ∧
    alookup (handle cfg st msg).state.sessions (msg.thread_ts.getD msg.ts) = none ∧
    statusMode (handle cfg st msg).state (msg.thread_ts.getD msg.ts) = "default" ∧
    statusModel cfg (handle cfg st msg).state (msg.thread_ts.getD msg.ts) =
      pyOrS (some cfg.DEFAULT_MODEL) "default" ∧
    get_cwd cfg (handle cfg st msg).state (msg.thread_ts.getD msg.ts) =
      get_cwd cfg st (msg.thread_ts.getD msg.ts) ∧
    (∀ u, u ≠ msg.thread_ts.getD msg.ts →
      alookup (handle cfg st msg).state.sessions u = alookup st.sessions u ∧
      alookup (handle cfg st msg).state.thread_mode u = alookup st.thread_mode u ∧
      alookup (handle cfg st msg).state.thread_model u = alookup st.thread_model u) := by
  have g1 : ¬ (("new" : String) = "stop") := by decide
  have g2 : ¬ (("new" : String) = "help") := by decide
  have g3 : ¬ (("new" : String) = "status") := by decide
  have hres : handle cfg st msg =
      reply { st with sessions := merase st.sessions (msg.thread_ts.getD msg.ts),
                      thread_mode := merase st.thread_mode (msg.thread_ts.getD msg.ts),
                      thread_model := merase st.thread_model (msg.thread_ts.getD msg.ts) }
        ["New session started\ncwd: `" ++
          get_cwd cfg { st with sessions := merase st.sessions (msg.thread_ts.getD msg.ts),
                                thread_mode := merase st.thread_mode (msg.thread_ts.getD msg.ts),
                                thread_model := merase st.thread_model (msg.thread_ts.getD msg.ts) }
            (msg.thread_ts.getD msg.ts) ++ "`"] := by
    simp only [handle, hu, hlow]
    simp [g1, g2, g3]
  rw [hres]
  refine ⟨rfl, rfl, rfl, rfl, rfl, ?_, ?_, ?_, ?_, ?_⟩
  · exact alookup_merase_self _ _
  · simp [statusMode, reply, alookup_merase_self]
  · simp [statusModel, reply, alookup_merase_self]
  · rfl
  · intro u hun
    exact ⟨alookup_merase_ne _ _ _ hun, alookup_merase_ne _ _ _ hun,
           alookup_merase_ne _ _ _ hun⟩

theorem C7_counterexample :
    statusModel cfgOpus (handle cfgOpus stBusy ⟨"new", "7.0", some "T", "u"⟩).state "T" = "opus" ∧
    ("opus" : String) ≠ "default" ∧
    (handle cfgOpus
        ((handle cfgOpus stBusy ⟨"new", "7.0", some "T", "u"⟩).state)
        ⟨"status", "8.0", some "T", "u"⟩).sent =
      ["*m Status*\ncwd: `/srv/proj`\nmode: `default`\nmodel: `opus`\n\n*Sessions:*\n  `sess-2`"] := by
  refine ⟨by decide, by decide, by decide⟩

theorem C7_witness :
    alookup (handle cfgW stBusy ⟨"new", "7.0", some "T", "u"⟩).state.sessions "T" = none ∧
    statusMode (handle cfgW stBusy ⟨"new", "7.0", some "T", "u"⟩).state "T" = "default" ∧
    statusModel cfgW (handle cfgW stBusy ⟨"new", "7.0", some "T", "u"⟩).state "T" =
      pyOrS (some cfgW.DEFAULT_MODEL) "default" ∧
    get_cwd cfgW (handle cfgW stBusy ⟨"new", "7.0", some "T", "u"⟩).state "T" =
      get_cwd cfgW stBusy "T" := by
  have h := C7_new_clears_thread cfgW stBusy ⟨"new", "7.0", some "T", "u"⟩ (by decide) (by decide)
  exact ⟨h.2.2.2.2.2.1, h.2.2.2.2.2.2.1, h.2.2.2.2.2.2.2.1, h.2.2.2.2.2.2.2.2.1⟩

theorem claudeBranch_state_facts (cfg : Config) (st : DaemonState) (text ts thread_ts : String) :
    alookup (claudeBranch cfg st text ts thread_ts).state.thread_mode thread_ts =
      ((parse_prefixes text).1).or (alookup st.thread_mode thread_ts) ∧
    alookup (claudeBranch cfg st text ts thread_ts).state.thread_model thread_ts =
      ((parse_prefixes text).2.1).or (alookup st.thread_model thread_ts) ∧
    (claudeBranch cfg st text ts thread_ts).claudeRuns =
      [(claudeCmd cfg (parse_prefixes text).2.2
          (sessionArgsOf (alookup st.sessions thread_ts)).1
          (sessionArgsOf (alookup st.sessions thread_ts)).2
          (((parse_prefixes text).1).or (alookup st.thread_mode thread_ts))
          (((parse_prefixes text).2.1).or (alookup st.thread_model thread_ts)),
        get_cwd cfg st thread_ts)] := by
  simp only [claudeBranch]
  rcases hpm : (parse_prefixes text).1 with _ | m <;>
    rcases hpmo : (parse_prefixes text).2.1 with _ | mo <;>
    refine ⟨?_, ?_, ?_⟩ <;>
    simp only [hpm, hpmo] <;>
    (repeat' split) <;>
    simp [get_cwd, alookup_minsert_self, Option.or]

/-- Claim C5: mode/model prefix parsing strips an optional mode prefix and
then an optional model prefix, case-insensitively and in that order
(`auto: opus: fix the bug` ↦ mode `auto`, model `opus`, prompt
`fix the bug`; `fix the bug` ↦ no prefixes; `readonly: fix` ↦ mode
`readonly`, prompt `fix`), and on the assistant path any prefix found is
stored as the thread's mode/model and the remainder is the prompt passed
to the claude invocation. -/
theorem C5_prefix_parsing (cfg : Config) (st : DaemonState) (msg : Msg)
    (hu : is_user_allowed cfg msg.user = true)
    (f1 : pyLower (pyStrip msg.text) ≠ "stop")
    (f2 : pyLower (pyStrip msg.text) ≠ "help")
    (f3 : pyLower (pyStrip msg.text) ≠ "status")
    (f4 : pyLower (pyStrip msg.text) ≠ "new")
    (f5 : pyStartsWith (pyLower (pyStrip msg.text)) "mode" = false)
    (f7 : pyStartsWith (pyLower (pyStrip msg.text)) "resume" = false)
    (f8 : pyStartsWith (pyStrip msg.text) "!" = false) :
    parse_prefixes "auto: opus: fix the bug" = (some "auto", some "opus", "fix the bug") ∧
    parse_prefixes "fix the bug" = (none, none, "fix the bug") ∧
    parse_prefixes "readonly: fix" = (some "readonly", none, "fix") ∧
    parse_prefixes "AUTO: Opus: fix" = (some "auto", some "opus", "fix") ∧
    alookup (handle cfg st msg).state.thread_mode (msg.thread_ts.getD msg.ts) =
      ((parse_prefixes (pyStrip msg.text)).1).or
        (alookup st.thread_mode (msg.thread_ts.getD msg.ts)) ∧
    alookup (handle cfg st msg).state.thread_model (msg.thread_ts.getD msg.ts) =
      ((parse_prefixes (pyStrip msg.text)).2.1).or
        (alookup st.thread_model (msg.thread_ts.getD msg.ts)) ∧
    (handle cfg st msg).claudeRuns =
      [(claudeCmd cfg (parse_prefixes (pyStrip msg.text)).2.2
          (sessionArgsOf (alookup st.sessions (msg.thread_ts.getD msg.ts))).1
          (sessionArgsOf (alookup st.sessions (msg.thread_ts.getD msg.ts))).2
          (((parse_prefixes (pyStrip msg.text)).1).or
            (alookup st.thread_mode (msg.thread_ts.getD msg.ts)))
          (((parse_prefixes (pyStrip msg.text)).2.1).or
            (alookup st.thread_model (msg.thread_ts.getD msg.ts))),
        get_cwd cfg st (msg.thread_ts.getD msg.ts))] := by
  have heq := handle_eq_claudeBranch cfg st msg hu f1 f2 f3 f4 f5 f7 f8
  have hfacts := claudeBranch_state_facts cfg st (pyStrip msg.text) msg.ts (msg.thread_ts.getD msg.ts)
  exact ⟨by decide, by decide, by decide, by decide,
    heq ▸ hfacts.1, heq ▸ hfacts.2.1, heq ▸ hfacts.2.2⟩

theorem C5_witness :
    alookup (handle cfgW st0 ⟨"auto: opus: fix the bug", "4.0", none, "u"⟩).state.thread_mode "4.0" =
      some "auto" ∧
    alookup (handle cfgW st0 ⟨"auto: opus: fix the bug", "4.0", none, "u"⟩).state.thread_model "4.0" =
      some "opus" ∧
    (handle cfgW st0 ⟨"auto: opus: fix the bug", "4.0", none, "u"⟩).claudeRuns =
      [(claudeCmd cfgW "fix the bug" none false (some "auto") (some "opus"), "/home/u")] := by
  have h := C5_prefix_parsing cfgW st0 ⟨"auto: opus: fix the bug", "4.0", none, "u"⟩
    (by decide) (by decide) (by decide) (by decide) (by decide) (by decide) (by decide) (by decide)
  exact ⟨h.2.2.2.2.1.trans (by decide), h.2.2.2.2.2.1.trans (by decide),
         h.2.2.2.2.2.2.trans (by decide)⟩

theorem pollRun_fst (bu : String) :
    ∀ (l : List PollMsg) (c : ℚ),
      (pollRun bu c l).1 = (l.getLast?.map PollMsg.ts).getD c := by
  intro l
  induction l with
  | nil => intro c; rfl
  | cons a rest ih =>
    intro c
    show (pollRun bu a.ts rest).1 = _
    rw [ih a.ts]
    rcases hr : rest with _ | ⟨b, t⟩
    · rfl
    · rw [← hr]
      have hne : rest ≠ [] := by rw [hr]; exact List.cons_ne_nil b t
      obtain ⟨x, hx⟩ := Option.isSome_iff_exists.mp (List.getLast?_isSome.mpr hne)
      have hcons : (a :: rest).getLast? = rest.getLast? := by
        rw [hr]
        simp
      rw [hx, hcons, hx]
      simp

theorem pollRun_mem_ts_le (bu : String) :
    ∀ (l : List PollMsg) (c : ℚ), l.Pairwise tsLe →
      ∀ m ∈ l, m.ts ≤ (pollRun bu c l).1 := by
  intro l
  induction l with
  | nil => intro c _ m hm; exact absurd hm (List.not_mem_nil m)
  | cons a rest ih =>
    intro c hp m hm
    have hstep : (pollRun bu c (a :: rest)).1 = (pollRun bu a.ts rest).1 := rfl
    rcases List.mem_cons.mp hm with hma | hmr
    · subst hma
      rw [hstep, pollRun_fst]
      rcases hg : rest.getLast? with _ | x
      · simp
      · have hx : x ∈ rest := List.mem_of_getLast?_eq_some hg
        have := (List.pairwise_cons.mp hp).1 x hx
        simpa [hg] using this
    · rw [hstep]
      exact ih a.ts (List.pairwise_cons.mp hp).2 m hmr

theorem pollRun_snd_mem (bu : String) :
    ∀ (l : List PollMsg) (c : ℚ) (m : PollMsg), m ∈ (pollRun bu c l).2 → m ∈ l := by
  intro l
  induction l with
  | nil => intro c m hm; exact absurd hm (List.not_mem_nil m)
  | cons a rest ih =>
    intro c m hm
    have hsnd : (pollRun bu c (a :: rest)).2 =
        (if (pollStep bu c a).2 = true then [a] else []) ++ (pollRun bu a.ts rest).2 := rfl
    rw [hsnd] at hm
    rcases List.mem_append.mp hm with hl | hr
    · by_cases hd : (pollStep bu c a).2 = true
      · rw [if_pos hd] at hl
        rcases List.mem_singleton.mp hl with rfl
        exact List.mem_cons_self _ _
      · rw [if_neg hd] at hl
        exact absurd hl (List.not_mem_nil m)
    · exact List.mem_cons_of_mem a (ih a.ts m hr)

/-- Claim C6: in the top-level poll sub-loop the cursor is advanced to each
processed message's id whether it was dispatched or skipped; over a batch
fetched above the cursor the cursor only moves up, every fetched id ends at
or below the final cursor, every dispatched message came from the batch and
sits strictly above the starting cursor, and a replayed second fetch
honouring the cursor contract can never dispatch an id from the first
batch again. -/
theorem C6_poll_cursor_monotone (bu : String) (c : ℚ) (msgs msgs2 : List PollMsg)
    (h1 : ∀ m ∈ msgs, c < m.ts)
    (h2 : ∀ m ∈ msgs2, (pollRound bu c msgs).1 < m.ts) :
    (∀ (c0 : ℚ) (m : PollMsg), (pollStep bu c0 m).1 = m.ts) ∧
    (∀ m ∈ msgs, m.ts ≤ (pollRound bu c msgs).1) ∧
    c ≤ (pollRound bu c msgs).1 ∧
    (∀ m ∈ (pollRound bu c msgs).2, m ∈ msgs ∧ c < m.ts) ∧
    (∀ m2 ∈ (pollRound bu (pollRound bu c msgs).1 msgs2).2, ∀ m ∈ msgs, m2.ts ≠ m.ts) := by
  have hpair : (List.insertionSort tsLe msgs).Pairwise tsLe := List.sorted_insertionSort tsLe msgs
  have hmem : ∀ m : PollMsg, m ∈ List.insertionSort tsLe msgs ↔ m ∈ msgs :=
    fun m => (List.perm_insertionSort tsLe msgs).mem_iff
  have hle : ∀ m ∈ msgs, m.ts ≤ (pollRound bu c msgs).1 := by
    intro m hm
    exact pollRun_mem_ts_le bu _ c hpair m ((hmem m).mpr hm)
  refine ⟨fun c0 m => rfl, hle, ?_, ?_, ?_⟩
  · rw [pollRound, pollRun_fst]
    rcases hg : (List.insertionSort tsLe msgs).getLast? with _ | x
    · simp
    · have hx : x ∈ msgs := (hmem x).mp (List.mem_of_getLast?_eq_some hg)
      simpa [hg] using le_of_lt (h1 x hx)
  · intro m hm
    have hmem1 : m ∈ msgs := (hmem m).mp (pollRun_snd_mem bu _ c m hm)
    exact ⟨hmem1, h1 m hmem1⟩
  · intro m2 hm2 m hm
    have hmem2 : m2 ∈ msgs2 :=
      ((List.perm_insertionSort tsLe msgs2).mem_iff).mp
        (pollRun_snd_mem bu _ _ m2 hm2)
    exact (lt_of_le_of_lt (hle m hm) (h2 m2 hmem2)).ne'

theorem C6_witness :
    (2 : ℚ) ≤ (pollRound "B" 1 [⟨2, false, "u", "hi"⟩, ⟨3, true, "x", "yo"⟩]).1 ∧
    (1 : ℚ) ≤ (pollRound "B" 1 [⟨2, false, "u", "hi"⟩, ⟨3, true, "x", "yo"⟩]).1 := by
  have h := C6_poll_cursor_monotone "B" 1
    [⟨2, false, "u", "hi"⟩, ⟨3, true, "x", "yo"⟩] [⟨5, false, "u", "z"⟩]
    (by decide) (by decide)
  exact ⟨h.2.1 ⟨2, false, "u", "hi"⟩ (by decide), h.2.2.1⟩

theorem C8_counterexample : ¬ fetchTerminates advTransport := by
  rintro ⟨n, h⟩
  have key : ∀ (n : Nat) (cursor : Option String),
      fetchLoop advTransport 50 n [] cursor = none := by
    intro n
    induction n with
    | zero => intro cursor; rfl
    | succ n ih =>
      intro cursor
      have hp : advTransport.page cursor = some ⟨[], true, "next"⟩ := rfl
      simp only [fetchLoop, hp]
      simp [ih]
  rw [fetch_messages_fuel, key n none] at h
  exact Bool.false_ne_true h

/-- Claim C8 (amended): the pagination loop of `fetch_messages` stops —
returning the messages accumulated so far — when the transport reports
`has_more` with an empty next cursor, when the accumulated count has
reached the cap, or when the transport reports no more pages; but it does
not terminate for every transport behaviour (a transport endlessly serving
empty pages with `has_more` and a nonempty cursor loops forever). -/
theorem C8_pagination_amended :
    (∀ (pgMsgs : List PollMsg) (fuel : Nat),
      fetchLoop (stubEmptyCursor pgMsgs) 50 (fuel + 1) [] none = some pgMsgs) ∧
    (∀ (t : Transport) (limit fuel : Nat) (acc : List PollMsg) (cursor : Option String)
        (pg : Page), t.page cursor = some pg → pg.has_more = false →
      fetchLoop t limit (fuel + 1) acc cursor = some (acc ++ pg.messages)) ∧
    (∀ (t : Transport) (limit fuel : Nat) (acc : List PollMsg) (cursor : Option String)
        (pg : Page), t.page cursor = some pg → limit ≤ (acc ++ pg.messages).length →
      fetchLoop t limit (fuel + 1) acc cursor = some (acc ++ pg.messages)) ∧
    (∀ (t : Transport) (limit fuel : Nat) (acc : List PollMsg) (cursor : Option String)
        (pg : Page), t.page cursor = some pg → pg.next_cursor = "" →
      fetchLoop t limit (fuel + 1) acc cursor = some (acc ++ pg.messages)) := by
  refine ⟨?_, ?_, ?_, ?_⟩
  · intro pgMsgs fuel
    simp only [fetchLoop, stubEmptyCursor]
    simp
  · intro t limit fuel acc cursor pg hpage hmore
    simp only [fetchLoop, hpage]
    simp [hmore]
  · intro t limit fuel acc cursor pg hpage hcap
    rw [List.length_append] at hcap
    simp only [fetchLoop, hpage]
    simp
    intro h1 hlt h3
    exfalso
    omega
  · intro t limit fuel acc cursor pg hpage hcur
    simp only [fetchLoop, hpage]
    rw [hcur]
    simp

theorem C8_witness :
    fetchLoop (stubEmptyCursor [⟨1, false, "u", "t"⟩]) 50 1 [] none =
      some [⟨1, false, "u", "t"⟩] ∧
    fetchLoop (stubNoMore [⟨1, false, "u", "t"⟩]) 50 1 [] none =
      some ([] ++ [⟨1, false, "u", "t"⟩]) :=
  ⟨C8_pagination_amended.1 [⟨1, false, "u", "t"⟩] 0,
   C8_pagination_amended.2.1 (stubNoMore [⟨1, false, "u", "t"⟩]) 50 0 [] none
     ⟨[⟨1, false, "u", "t"⟩], false, "c"⟩ rfl rfl⟩
